import Mathlib

/-!
Verification of the request-validation and query-construction core of the
Vitibrasil scraper service (`src/main.py`).

The Python source is shallowly embedded: the static `VALID_OPTIONS` nested
dict becomes an association list, the handler `get_table_data` becomes a
pure function parameterised by the external `scrape_table` collaborator,
and Python `urlencode`/`quote_plus` are embedded over `List Char`.
-/

/-- A Python dict of string keys is embedded as an association list that
keeps insertion order (Python 3.7+ dicts preserve it). -/
def dictContains (d : List (String × α)) (k : String) : Bool :=
  d.any (fun p => p.1 == k)

/-- Embedding of Python `d[k]` / `d.get(k)`: first binding of the key. -/
def dictGet (d : List (String × α)) (k : String) : Option α :=
  (d.find? (fun p => p.1 == k)).map Prod.snd

/-- Embedding of Python `list(d.keys())`. -/
def dictKeys (d : List (String × α)) : List String :=
  d.map Prod.fst

/-- `VALID_OPTIONS` from `src/main.py` lines 38-60.  Each category maps to a
dict whose values are `Option String`: the sentinel entry
`"subopcao": None` is `("subopcao", none)` and every labelled entry is
`(key, some label)`, exactly as in the source. -/
def VALID_OPTIONS : List (String × List (String × Option String)) :=
  [ ("opt_02", [("subopcao", none), ("descricao", some "Produção")]),
    ("opt_03",
      [ ("subopt_01", some "Processamento - Viníferas"),
        ("subopt_02", some "Processamento - Americanas e Híbridas"),
        ("subopt_03", some "Processamento - Uvas de Mesa"),
        ("subopt_04", some "Processamento - Sem Classificação") ]),
    ("opt_04", [("subopcao", none), ("descricao", some "Comercialização")]),
    ("opt_05",
      [ ("subopt_01", some "Importação - Vinhos de Mesa"),
        ("subopt_02", some "Importação - Espumantes"),
        ("subopt_03", some "Importação - Uvas Frescas"),
        ("subopt_04", some "Importação - Uvas Passas"),
        ("subopt_05", some "Importação - Suco de Uva") ]),
    ("opt_06",
      [ ("subopt_01", some "Exportação - Vinhos de Mesa"),
        ("subopt_02", some "Exportação - Espumantes"),
        ("subopt_03", some "Exportação - Uvas Frescas"),
        ("subopt_04", some "Exportação - Suco de Uva") ]) ]

/-- Python truthiness of an `Optional[str]`: `None` and `""` are falsy,
any non-empty string is truthy (`if subopcao:` in the source). -/
def optTruthy : Option String → Bool
  | none => false
  | some s => !(s == "")

/-- Python `repr` of a list of strings, as interpolated by the f-strings in
the error messages: `[ 'a', 'b' ]` with single quotes and `", "` separators. -/
def pyListRepr (xs : List String) : String :=
  "[" ++ String.intercalate ", " (xs.map (fun s => "\x27" ++ s ++ "\x27")) ++ "]"

/-- The validation-failure taxonomy of the spec (§7): year out of range,
unknown category, subcategory supplied to a category that takes none, and
unknown subcategory.  The payloads carry what the source interpolates into
the error messages. -/
inductive ValidationError where
  | OutOfRange : ValidationError
  | UnknownCategory : List String → ValidationError
  | UnexpectedSubcategory : String → ValidationError
  | UnknownSubcategory : String → List String → ValidationError
deriving DecidableEq, Repr

/-- The message attached to each validation failure.  The category and
subcategory messages are the exact f-strings of `src/main.py` lines 101,
110 and 115.  The out-of-range message is Modelled from the spec: the
year bound rejection is produced by the FastAPI parameter layer
(`ge=1970, le=2024` on line 93), whose message text is not in the source;
the spec only requires a human-readable message naming the field. -/
def errorMessage : ValidationError → String
  | .OutOfRange => "Ano inválido. Deve estar entre 1970 e 2024."
  | .UnknownCategory valid => "Opção inválida. Opções válidas: " ++ pyListRepr valid
  | .UnexpectedSubcategory opcao =>
      "A opção \x27" ++ opcao ++ "\x27 não aceita subopcao"
  | .UnknownSubcategory opcao valid =>
      "Subopção inválida para \x27" ++ opcao ++ "\x27. Subopções válidas: " ++ pyListRepr valid

/-- The validation performed on a request, in source order: the year bounds
(FastAPI checks `ge=1970, le=2024` from line 93 before the handler body
runs; the spec maps that failure to `OutOfRange`), then the checks of
`get_table_data`, lines 98-116: category membership in `VALID_OPTIONS`,
then the two-branch subcategory check (`isinstance(option_details, dict)`
is always true and is dropped).  Returns the first failure, or `none` when
the request is valid. -/
def validate (ano : Int) (opcao : String) (subopcao : Option String) :
    Option ValidationError :=
  if ano < 1970 ∨ 2024 < ano then some .OutOfRange
  else if dictContains VALID_OPTIONS opcao = false then
    some (.UnknownCategory (dictKeys VALID_OPTIONS))
  else
    let option_details := (dictGet VALID_OPTIONS opcao).getD []
    if dictContains option_details "subopcao" = true ∧
        dictGet option_details "subopcao" = some none then
      if optTruthy subopcao = true then some (.UnexpectedSubcategory opcao)
      else none
    else if optTruthy subopcao = true ∧
        dictContains option_details (subopcao.getD "") = false then
      some (.UnknownSubcategory opcao (dictKeys option_details))
    else none

/-- Uppercase hexadecimal digit, as `urllib.parse.quote` emits. -/
def hexDigitChar (n : Nat) : Char :=
  if n < 10 then Char.ofNat (48 + n) else Char.ofNat (55 + n)

/-- UTF-8 encoding of one code point, as a list of byte values. -/
def utf8Bytes (c : Char) : List Nat :=
  let n := c.toNat
  if n < 128 then [n]
  else if n < 2048 then [192 + n / 64, 128 + n % 64]
  else if n < 65536 then [224 + n / 4096, 128 + n / 64 % 64, 128 + n % 64]
  else [240 + n / 262144, 128 + n / 4096 % 64, 128 + n / 64 % 64, 128 + n % 64]

/-- `%XX` escape of one byte. -/
def percentByte (b : Nat) : List Char :=
  ['%', hexDigitChar (b / 16), hexDigitChar (b % 16)]

/-- The characters `urllib.parse.quote_plus` leaves unescaped:
alphanumerics and `_.-~`. -/
def isQuoteSafe (c : Char) : Bool :=
  c.isUpper || c.isLower || c.isDigit || c == '_' || c == '.' || c == '-' || c == '~'

/-- `quote_plus` on one character: safe characters pass through, the space
becomes `+`, everything else is percent-encoded byte by byte. -/
def quoteChar (c : Char) : List Char :=
  if isQuoteSafe c then [c]
  else if c == ' ' then ['+']
  else ((utf8Bytes c).map percentByte).flatten

/-- Embedding of `urllib.parse.quote_plus`. -/
def quote_plus (s : String) : String :=
  ⟨(s.data.map quoteChar).flatten⟩

/-- Python `sep.join(parts)`. -/
def pyJoin (sep : String) : List String → String
  | [] => ""
  | [x] => x
  | x :: xs => x ++ sep ++ pyJoin sep xs

/-- Embedding of `urllib.parse.urlencode`: each pair becomes
`quote_plus key = quote_plus value` and the pairs are joined with `&`. -/
def urlencode (params : List (String × String)) : String :=
  pyJoin "&" (params.map (fun kv => quote_plus kv.1 ++ "=" ++ quote_plus kv.2))

/-- The base endpoint of `build_url`, `src/main.py` line 76. -/
def base_url : String := "http://vitibrasil.cnpuv.embrapa.br/index.php"

/-- `build_url` from `src/main.py` lines 74-80: the parameter dict is built
in insertion order `ano`, `opcao`, then `subopcao` only when truthy
(`if subopcao:`), and serialized with `urlencode`.  `str(ano)` is
`toString ano`. -/
def build_url (ano : Int) (opcao : String) (subopcao : Option String) : String :=
  let params := [("ano", toString ano), ("opcao", opcao)] ++
    (if optTruthy subopcao = true then [("subopcao", subopcao.getD "")] else [])
  base_url ++ "?" ++ urlencode params

/-- The outward response envelope (spec §3): success with the extracted
rows and the request URL, or a failure with an HTTP status and message. -/
inductive ResponseEnvelope where
  | success : List (List String) → String → ResponseEnvelope
  | failure : Nat → String → ResponseEnvelope
deriving DecidableEq, Repr

/-- The `/scrape` handler `get_table_data`, `src/main.py` lines 92-129,
together with the FastAPI year-bound check that runs before it.  The
inline validation raises are factored into `validate`/`errorMessage`
(same checks, same order, same messages); every `HTTPException` with
status 400 becomes `failure 400`.  The external collaborator
`scrape_table` is a parameter `fetch`; on its failure the handler returns
status 500 with the exception text wrapped exactly as on line 128. -/
def get_table_data (fetch : String → Except String (List (List String)))
    (ano : Int) (opcao : String) (subopcao : Option String) : ResponseEnvelope :=
  match validate ano opcao subopcao with
  | some e => .failure 400 (errorMessage e)
  | none =>
    let url := build_url ano opcao subopcao
    match fetch url with
    | .ok data => .success data url
    | .error e => .failure 500 ("Erro ao processar a URL: " ++ e)


/-- The non-negative value of a decimal digit character. -/
def digitVal (c : Char) : Nat := c.toNat - 48

/-- Decimal value of a list of digit characters. -/
def natOfDigits (l : List Char) : Nat := l.foldl (fun a c => 10 * a + digitVal c) 0

/-- Parse an optionally signed decimal integer token, as a query-string
parser reads the `ano` value. -/
def parseIntToken (l : List Char) : Option Int :=
  match l with
  | '-' :: rest =>
    if rest ≠ [] ∧ rest.all Char.isDigit then some (-(natOfDigits rest : Int)) else none
  | _ => if l ≠ [] ∧ l.all Char.isDigit then some ((natOfDigits l : Int)) else none

/-- Split a character list at every occurrence of a separator. -/
def splitOnChar (sep : Char) : List Char → List (List Char)
  | [] => [[]]
  | c :: rest =>
    if c == sep then [] :: splitOnChar sep rest
    else match splitOnChar sep rest with
    | [] => [[c]]
    | h :: t => (c :: h) :: t

/-- A query-parameter parser for the retrieval request, used to state the
round-trip property of §8: split the URL at `?`, the query at `&`, each
binding at `=`, and accept exactly the parameter lists
`ano, opcao` and `ano, opcao, subopcao`, in that order. -/
def parseQueryString (u : String) : Option (Int × String × Option String) :=
  match splitOnChar '?' u.data with
  | [_, q] =>
    match (splitOnChar '&' q).map (splitOnChar '=') with
    | [[k1, v1], [k2, v2]] =>
      if k1 = "ano".data ∧ k2 = "opcao".data then
        match parseIntToken v1 with
        | some y => some (y, String.mk v2, none)
        | none => none
      else none
    | [[k1, v1], [k2, v2], [k3, v3]] =>
      if k1 = "ano".data ∧ k2 = "opcao".data ∧ k3 = "subopcao".data then
        match parseIntToken v1 with
        | some y => some (y, String.mk v2, some (String.mk v3))
        | none => none
      else none
    | _ => none
  | _ => none

/-- A string all of whose characters pass through `quote_plus` unescaped. -/
def tokenOk (s : String) : Bool := s.data.all isQuoteSafe

/-- A validated Query in the sense of spec §3: the raw triple passes the
validator, and a supplied subcategory is an actual key (never the empty
string, which the validator treats as absent). -/
def validQuery (y : Int) (c : String) (s : Option String) : Prop :=
  validate y c s = none ∧ s ≠ some ""

/-- Serialization as the spec words it (§4.3, §6): the base endpoint, then
the query parameters in the fixed order `year`, `category`, and — only
when present — `subcategory`, every value percent-encoded, and no
subcategory parameter when the subcategory is absent. -/
def specSerialize (y : Int) (c : String) (s : Option String) : String :=
  base_url ++ "?" ++ "ano=" ++ quote_plus (toString y) ++ "&opcao=" ++ quote_plus c ++
    (match s with
     | some v => "&subopcao=" ++ quote_plus v
     | none => "")

/-- Decidable bundle of facts about the decimal form of a valid year
1970 + n: its digits are quote-safe and the query parser reads it back. -/
def yearReprOk (n : Nat) : Bool :=
  let y : Int := 1970 + n
  let s := toString y
  tokenOk s && (parseIntToken s.data == some y)

theorem validate_out_of_range (y : Int) (c : String) (s : Option String)
    (h : y < 1970 ∨ 2024 < y) : validate y c s = some .OutOfRange := by
  simp [validate, h]

theorem validate_unknown_category (y : Int) (c : String) (s : Option String)
    (hy : ¬(y < 1970 ∨ 2024 < y)) (hc : dictContains VALID_OPTIONS c = false) :
    validate y c s = some (.UnknownCategory (dictKeys VALID_OPTIONS)) := by
  simp [validate, hy, hc]

theorem validate_opt02 (y : Int) (s : Option String) :
    validate y "opt_02" s =
      if y < 1970 ∨ 2024 < y then some .OutOfRange
      else if optTruthy s = true then some (.UnexpectedSubcategory "opt_02")
      else none := by
  by_cases h : y < 1970 ∨ 2024 < y
  · simp [validate, h]
  · simp only [validate, h, if_false, ite_false]
    rw [if_neg (by decide : ¬(dictContains VALID_OPTIONS "opt_02" = false))]
    rw [if_pos (by decide :
      dictContains ((dictGet VALID_OPTIONS "opt_02").getD []) "subopcao" = true ∧
        dictGet ((dictGet VALID_OPTIONS "opt_02").getD []) "subopcao" = some none)]

theorem validate_opt04 (y : Int) (s : Option String) :
    validate y "opt_04" s =
      if y < 1970 ∨ 2024 < y then some .OutOfRange
      else if optTruthy s = true then some (.UnexpectedSubcategory "opt_04")
      else none := by
  by_cases h : y < 1970 ∨ 2024 < y
  · simp [validate, h]
  · simp only [validate, h, if_false, ite_false]
    rw [if_neg (by decide : ¬(dictContains VALID_OPTIONS "opt_04" = false))]
    rw [if_pos (by decide :
      dictContains ((dictGet VALID_OPTIONS "opt_04").getD []) "subopcao" = true ∧
        dictGet ((dictGet VALID_OPTIONS "opt_04").getD []) "subopcao" = some none)]

theorem validate_opt03 (y : Int) (s : Option String) :
    validate y "opt_03" s =
      if y < 1970 ∨ 2024 < y then some .OutOfRange
      else if optTruthy s = true ∧
          dictContains ((dictGet VALID_OPTIONS "opt_03").getD []) (s.getD "") = false then
        some (.UnknownSubcategory "opt_03" ["subopt_01", "subopt_02", "subopt_03", "subopt_04"])
      else none := by
  by_cases h : y < 1970 ∨ 2024 < y
  · simp [validate, h]
  · simp only [validate, h, if_false, ite_false]
    rw [if_neg (by decide : ¬(dictContains VALID_OPTIONS "opt_03" = false))]
    rw [if_neg (by decide :
      ¬(dictContains ((dictGet VALID_OPTIONS "opt_03").getD []) "subopcao" = true ∧
        dictGet ((dictGet VALID_OPTIONS "opt_03").getD []) "subopcao" = some none))]
    rfl

theorem validate_opt05 (y : Int) (s : Option String) :
    validate y "opt_05" s =
      if y < 1970 ∨ 2024 < y then some .OutOfRange
      else if optTruthy s = true ∧
          dictContains ((dictGet VALID_OPTIONS "opt_05").getD []) (s.getD "") = false then
        some (.UnknownSubcategory "opt_05"
          ["subopt_01", "subopt_02", "subopt_03", "subopt_04", "subopt_05"])
      else none := by
  by_cases h : y < 1970 ∨ 2024 < y
  · simp [validate, h]
  · simp only [validate, h, if_false, ite_false]
    rw [if_neg (by decide : ¬(dictContains VALID_OPTIONS "opt_05" = false))]
    rw [if_neg (by decide :
      ¬(dictContains ((dictGet VALID_OPTIONS "opt_05").getD []) "subopcao" = true ∧
        dictGet ((dictGet VALID_OPTIONS "opt_05").getD []) "subopcao" = some none))]
    rfl

theorem validate_opt06 (y : Int) (s : Option String) :
    validate y "opt_06" s =
      if y < 1970 ∨ 2024 < y then some .OutOfRange
      else if optTruthy s = true ∧
          dictContains ((dictGet VALID_OPTIONS "opt_06").getD []) (s.getD "") = false then
        some (.UnknownSubcategory "opt_06" ["subopt_01", "subopt_02", "subopt_03", "subopt_04"])
      else none := by
  by_cases h : y < 1970 ∨ 2024 < y
  · simp [validate, h]
  · simp only [validate, h, if_false, ite_false]
    rw [if_neg (by decide : ¬(dictContains VALID_OPTIONS "opt_06" = false))]
    rw [if_neg (by decide :
      ¬(dictContains ((dictGet VALID_OPTIONS "opt_06").getD []) "subopcao" = true ∧
        dictGet ((dictGet VALID_OPTIONS "opt_06").getD []) "subopcao" = some none))]
    rfl

theorem validate_empty_eq_none (y : Int) (c : String) :
    validate y c (some "") = validate y c none := rfl

theorem build_url_empty_eq_none (y : Int) (c : String) :
    build_url y c (some "") = build_url y c none := rfl

theorem get_table_data_empty_eq_none (f : String → Except String (List (List String)))
    (y : Int) (c : String) :
    get_table_data f y c (some "") = get_table_data f y c none := rfl

/-- C1: for the categories that accept subcategories (`opt_03`, `opt_05`,
`opt_06`) and any in-range year, a supplied non-empty subcategory that is
not a key of the category's mapping fails validation with
`UnknownSubcategory` and HTTP 400, with a message listing that category's
subcategory identifiers; a supplied key succeeds, and supplying no
subcategory also succeeds. -/
theorem C1_unknown_subcategory :
    ∀ cat ∈ (["opt_03", "opt_05", "opt_06"] : List String),
    ∀ y : Int, 1970 ≤ y → y ≤ 2024 →
      (∀ s : String, s ≠ "" →
        dictContains ((dictGet VALID_OPTIONS cat).getD []) s = false →
        validate y cat (some s) =
          some (.UnknownSubcategory cat (dictKeys ((dictGet VALID_OPTIONS cat).getD []))) ∧
        ∀ f, get_table_data f y cat (some s) =
          .failure 400 (errorMessage
            (.UnknownSubcategory cat (dictKeys ((dictGet VALID_OPTIONS cat).getD []))))) ∧
      (∀ s : String, dictContains ((dictGet VALID_OPTIONS cat).getD []) s = true →
        validate y cat (some s) = none) ∧
      validate y cat none = none := by
  intro cat hcat y hy1 hy2
  have hoor : ¬(y < 1970 ∨ 2024 < y) := by omega
  simp only [List.mem_cons, List.not_mem_nil, or_false] at hcat
  rcases hcat with rfl | rfl | rfl
  · refine ⟨fun s hs hns => ?_, fun s hmem => ?_, ?_⟩
    · have hv : validate y "opt_03" (some s) =
          some (.UnknownSubcategory "opt_03"
            (dictKeys ((dictGet VALID_OPTIONS "opt_03").getD []))) := by
        simp [validate_opt03, hoor, optTruthy, hs, hns]
        rfl
      exact ⟨hv, fun f => by simp [get_table_data, hv]⟩
    · simp [validate_opt03, hoor, hmem]
    · simp [validate_opt03, hoor, optTruthy]
  · refine ⟨fun s hs hns => ?_, fun s hmem => ?_, ?_⟩
    · have hv : validate y "opt_05" (some s) =
          some (.UnknownSubcategory "opt_05"
            (dictKeys ((dictGet VALID_OPTIONS "opt_05").getD []))) := by
        simp [validate_opt05, hoor, optTruthy, hs, hns]
        rfl
      exact ⟨hv, fun f => by simp [get_table_data, hv]⟩
    · simp [validate_opt05, hoor, hmem]
    · simp [validate_opt05, hoor, optTruthy]
  · refine ⟨fun s hs hns => ?_, fun s hmem => ?_, ?_⟩
    · have hv : validate y "opt_06" (some s) =
          some (.UnknownSubcategory "opt_06"
            (dictKeys ((dictGet VALID_OPTIONS "opt_06").getD []))) := by
        simp [validate_opt06, hoor, optTruthy, hs, hns]
        rfl
      exact ⟨hv, fun f => by simp [get_table_data, hv]⟩
    · simp [validate_opt06, hoor, hmem]
    · simp [validate_opt06, hoor, optTruthy]

/-- C1 witness: scenario 3 of the spec, `year=2020, category=opt_03,
subcategory=subopt_99`. -/
theorem C1_witness :
    validate 2020 "opt_03" (some "subopt_99") =
      some (.UnknownSubcategory "opt_03"
        (dictKeys ((dictGet VALID_OPTIONS "opt_03").getD []))) ∧
    get_table_data (fun _ => .ok []) 2020 "opt_03" (some "subopt_99") =
      .failure 400 (errorMessage (.UnknownSubcategory "opt_03"
        (dictKeys ((dictGet VALID_OPTIONS "opt_03").getD [])))) := by
  have h := (C1_unknown_subcategory "opt_03" (by decide) 2020 (by decide) (by decide)).1
    "subopt_99" (by decide) (by decide)
  exact ⟨h.1, h.2 _⟩

/-- C2: validation succeeds exactly for years in [1970, 2024]; an
out-of-range year fails with `OutOfRange` and HTTP 400 whatever the
category and subcategory are — in particular before the category is
checked against the catalog. -/
theorem C2_year_bounds :
    (∀ y : Int, validate y "opt_02" none = none ↔ (1970 ≤ y ∧ y ≤ 2024)) ∧
    (∀ y : Int, (y < 1970 ∨ 2024 < y) →
      ∀ (c : String) (s : Option String)
        (f : String → Except String (List (List String))),
        validate y c s = some .OutOfRange ∧
        get_table_data f y c s = .failure 400 (errorMessage .OutOfRange)) := by
  constructor
  · intro y
    constructor
    · intro h
      by_contra hb
      have hoor : y < 1970 ∨ 2024 < y := by omega
      rw [validate_out_of_range _ _ _ hoor] at h
      exact Option.noConfusion h
    · intro hb
      have hoor : ¬(y < 1970 ∨ 2024 < y) := by omega
      simp [validate_opt02, hoor, optTruthy]
  · intro y hoor c s f
    have hv := validate_out_of_range y c s hoor
    exact ⟨hv, by simp [get_table_data, hv]⟩

/-- C2 witness: scenario 5 of the spec, `year=1969`, including with a
category that is not in the catalog (showing the year is rejected first). -/
theorem C2_witness :
    validate 1969 "opt_02" none = some .OutOfRange ∧
    validate 1969 "bogus" none = some .OutOfRange ∧
    get_table_data (fun _ => .ok []) 1969 "opt_02" none =
      .failure 400 (errorMessage .OutOfRange) := by
  refine ⟨?_, ?_, ?_⟩
  · exact (C2_year_bounds.2 1969 (by decide) "opt_02" none (fun _ => .ok [])).1
  · exact (C2_year_bounds.2 1969 (by decide) "bogus" none (fun _ => .ok [])).1
  · exact (C2_year_bounds.2 1969 (by decide) "opt_02" none (fun _ => .ok [])).2

/-- C3 counterexample: the claim says the catalog has 4 categories, but
`VALID_OPTIONS` has exactly 5 (`opt_02` … `opt_06`). -/
theorem C3_counterexample :
    (dictKeys VALID_OPTIONS).length = 5 ∧ ¬((dictKeys VALID_OPTIONS).length = 4) := by
  decide

/-- C3 (amended): the catalog contains exactly the 5 documented entries —
`opt_02` (production, no subcategories), `opt_03` (processing, 4
subcategories), `opt_04` (commercialization, no subcategories), `opt_05`
(import, 5 subcategories), `opt_06` (export, 4 subcategories) — and
nothing else. -/
theorem C3_catalog_contents :
    dictKeys VALID_OPTIONS = ["opt_02", "opt_03", "opt_04", "opt_05", "opt_06"] ∧
    dictGet VALID_OPTIONS "opt_02" =
      some [("subopcao", none), ("descricao", some "Produção")] ∧
    dictKeys ((dictGet VALID_OPTIONS "opt_03").getD []) =
      ["subopt_01", "subopt_02", "subopt_03", "subopt_04"] ∧
    dictGet VALID_OPTIONS "opt_04" =
      some [("subopcao", none), ("descricao", some "Comercialização")] ∧
    dictKeys ((dictGet VALID_OPTIONS "opt_05").getD []) =
      ["subopt_01", "subopt_02", "subopt_03", "subopt_04", "subopt_05"] ∧
    dictKeys ((dictGet VALID_OPTIONS "opt_06").getD []) =
      ["subopt_01", "subopt_02", "subopt_03", "subopt_04"] := by
  decide

/-- C4: for the categories without subcategory support (`opt_02`,
`opt_04`) and any in-range year, any non-empty supplied subcategory fails
validation with `UnexpectedSubcategory` and HTTP 400, while an empty or
absent subcategory succeeds. -/
theorem C4_unexpected_subcategory :
    ∀ cat ∈ (["opt_02", "opt_04"] : List String),
    ∀ y : Int, 1970 ≤ y → y ≤ 2024 →
      (∀ s : String, s ≠ "" →
        validate y cat (some s) = some (.UnexpectedSubcategory cat) ∧
        ∀ f, get_table_data f y cat (some s) =
          .failure 400 (errorMessage (.UnexpectedSubcategory cat))) ∧
      validate y cat (some "") = none ∧
      validate y cat none = none := by
  intro cat hcat y hy1 hy2
  have hoor : ¬(y < 1970 ∨ 2024 < y) := by omega
  simp only [List.mem_cons, List.not_mem_nil, or_false] at hcat
  rcases hcat with rfl | rfl
  · refine ⟨fun s hs => ?_, ?_, ?_⟩
    · have hv : validate y "opt_02" (some s) = some (.UnexpectedSubcategory "opt_02") := by
        simp [validate_opt02, hoor, optTruthy, hs]
      exact ⟨hv, fun f => by simp [get_table_data, hv]⟩
    · simp [validate_opt02, hoor, optTruthy]
    · simp [validate_opt02, hoor, optTruthy]
  · refine ⟨fun s hs => ?_, ?_, ?_⟩
    · have hv : validate y "opt_04" (some s) = some (.UnexpectedSubcategory "opt_04") := by
        simp [validate_opt04, hoor, optTruthy, hs]
      exact ⟨hv, fun f => by simp [get_table_data, hv]⟩
    · simp [validate_opt04, hoor, optTruthy]
    · simp [validate_opt04, hoor, optTruthy]

/-- C4 witness: scenario 4 of the spec, `year=2020, category=opt_04,
subcategory=subopt_01`. -/
theorem C4_witness :
    validate 2020 "opt_04" (some "subopt_01") =
      some (.UnexpectedSubcategory "opt_04") ∧
    get_table_data (fun _ => .ok []) 2020 "opt_04" (some "subopt_01") =
      .failure 400 (errorMessage (.UnexpectedSubcategory "opt_04")) := by
  have h := ((C4_unexpected_subcategory "opt_04" (by decide) 2020 (by decide) (by decide)).1
    "subopt_01" (by decide))
  exact ⟨h.1, h.2 _⟩

/-- C5 counterexample: with an out-of-range year, an unknown category is
reported as `OutOfRange`, not `UnknownCategory` — so an unknown category
does not fail with `UnknownCategory` regardless of the year. -/
theorem C5_counterexample :
    validate 1969 "bogus" none = some .OutOfRange ∧
    validate 1969 "bogus" none ≠
      some (.UnknownCategory (dictKeys VALID_OPTIONS)) := by
  decide

/-- C5 (amended): for every in-range year, a category token not present in
the catalog fails validation with `UnknownCategory` and HTTP 400 whatever
the subcategory is, and the message enumerates the full list of valid
category identifiers. -/
theorem C5_unknown_category_inrange :
    ∀ y : Int, 1970 ≤ y → y ≤ 2024 →
    ∀ c : String, dictContains VALID_OPTIONS c = false →
    ∀ (s : Option String) (f : String → Except String (List (List String))),
      validate y c s = some (.UnknownCategory (dictKeys VALID_OPTIONS)) ∧
      dictKeys VALID_OPTIONS = ["opt_02", "opt_03", "opt_04", "opt_05", "opt_06"] ∧
      get_table_data f y c s =
        .failure 400 (errorMessage (.UnknownCategory (dictKeys VALID_OPTIONS))) := by
  intro y hy1 hy2 c hc s f
  have hoor : ¬(y < 1970 ∨ 2024 < y) := by omega
  have hv := validate_unknown_category y c s hoor hc
  exact ⟨hv, by decide, by simp [get_table_data, hv]⟩

/-- C5 witness: `year=2020, category=opt_99`. -/
theorem C5_witness :
    validate 2020 "opt_99" none =
      some (.UnknownCategory (dictKeys VALID_OPTIONS)) ∧
    get_table_data (fun _ => .ok []) 2020 "opt_99" none =
      .failure 400 (errorMessage (.UnknownCategory (dictKeys VALID_OPTIONS))) := by
  have h := C5_unknown_category_inrange 2020 (by decide) (by decide) "opt_99" (by decide)
    none (fun _ => .ok [])
  exact ⟨h.1, h.2.2⟩

/-- C9: whenever validation fails, the response does not depend on the
Table Extractor at all — the same 400 failure is produced for every
possible extractor — so the extractor is never invoked, and the outcome is
a total failure, never a partial success. -/
theorem C9_validation_before_extractor :
    ∀ (y : Int) (c : String) (s : Option String) (e : ValidationError),
      validate y c s = some e →
      ∀ f g, get_table_data f y c s = get_table_data g y c s ∧
        get_table_data f y c s = .failure 400 (errorMessage e) := by
  intro y c s e h f g
  constructor
  · simp [get_table_data, h]
  · simp [get_table_data, h]

/-- C9 witness: an invalid request gives the same 400 envelope under an
extractor that succeeds and one that fails. -/
theorem C9_witness :
    get_table_data (fun _ => .ok [["row"]]) 2020 "opt_03" (some "subopt_99") =
      get_table_data (fun _ => .error "network down") 2020 "opt_03" (some "subopt_99") ∧
    get_table_data (fun _ => .ok [["row"]]) 2020 "opt_03" (some "subopt_99") =
      .failure 400 (errorMessage (.UnknownSubcategory "opt_03"
        ["subopt_01", "subopt_02", "subopt_03", "subopt_04"])) := by
  exact C9_validation_before_extractor 2020 "opt_03" (some "subopt_99")
    (.UnknownSubcategory "opt_03" ["subopt_01", "subopt_02", "subopt_03", "subopt_04"])
    (by decide) _ _

/-- C8: for a request that passes validation, a failing Table Extractor
yields a 500 failure whose message wraps the extractor error text, and a
successful one yields a success envelope carrying the rows and the request
URL. -/
theorem C8_extractor_outcome :
    ∀ (y : Int) (c : String) (s : Option String),
      validate y c s = none →
      ∀ (f : String → Except String (List (List String))),
        (∀ e, f (build_url y c s) = .error e →
          get_table_data f y c s =
            .failure 500 ("Erro ao processar a URL: " ++ e)) ∧
        (∀ rows, f (build_url y c s) = .ok rows →
          get_table_data f y c s = .success rows (build_url y c s)) := by
  intro y c s h f
  constructor
  · intro e he
    simp [get_table_data, h, he]
  · intro rows hr
    simp [get_table_data, h, hr]

/-- C8 witness: scenario 6 of the spec — a throwing extractor maps to a
500 with the underlying text, a successful one to a success envelope. -/
theorem C8_witness :
    get_table_data (fun _ => .error "boom") 2020 "opt_02" none =
      .failure 500 ("Erro ao processar a URL: " ++ "boom") ∧
    get_table_data (fun _ => .ok [["a", "b"]]) 2020 "opt_02" none =
      .success [["a", "b"]] (build_url 2020 "opt_02" none) := by
  refine ⟨?_, ?_⟩
  · exact (C8_extractor_outcome 2020 "opt_02" none (by decide) _).1 "boom" rfl
  · exact (C8_extractor_outcome 2020 "opt_02" none (by decide) _).2 [["a", "b"]] rfl

theorem splitOnChar_no_sep (sep : Char) (l : List Char) (h : ∀ c ∈ l, c ≠ sep) :
    splitOnChar sep l = [l] := by
  induction l with
  | nil => rfl
  | cons c rest ih =>
    have hc : c ≠ sep := h c (List.mem_cons_self c rest)
    have := ih (fun x hx => h x (List.mem_cons_of_mem c hx))
    simp [splitOnChar, this, hc]

theorem splitOnChar_append (sep : Char) (a b : List Char) (ha : ∀ c ∈ a, c ≠ sep) :
    splitOnChar sep (a ++ sep :: b) = a :: splitOnChar sep b := by
  induction a with
  | nil => simp [splitOnChar]
  | cons c rest ih =>
    have hc : c ≠ sep := ha c (List.mem_cons_self c rest)
    have ih2 := ih (fun x hx => ha x (List.mem_cons_of_mem c hx))
    simp [splitOnChar, ih2, hc]

theorem safe_not_sep (c : Char) (h : isQuoteSafe c = true) :
    c ≠ '?' ∧ c ≠ '&' ∧ c ≠ '=' := by
  refine ⟨?_, ?_, ?_⟩ <;> rintro rfl <;> revert h <;> decide

theorem quoteChar_safe (c : Char) (h : isQuoteSafe c = true) : quoteChar c = [c] := by
  simp [quoteChar, h]

theorem flatten_map_quoteChar (l : List Char) (h : ∀ c ∈ l, isQuoteSafe c = true) :
    (l.map quoteChar).flatten = l := by
  induction l with
  | nil => rfl
  | cons c rest ih =>
    rw [List.map_cons, List.flatten_cons, quoteChar_safe c (h c (List.mem_cons_self c rest)),
      ih (fun x hx => h x (List.mem_cons_of_mem c hx))]
    rfl

theorem tokenOk_mem (s : String) (h : tokenOk s = true) :
    ∀ c ∈ s.data, isQuoteSafe c = true := by
  simpa [tokenOk, List.all_eq_true] using h

theorem quote_plus_safe (s : String) (h : tokenOk s = true) : quote_plus s = s := by
  show String.mk ((s.data.map quoteChar).flatten) = s
  rw [flatten_map_quoteChar s.data (tokenOk_mem s h)]

theorem yearReprOk_all : ∀ n : Nat, n < 55 → yearReprOk n = true := by decide

theorem year_facts (y : Int) (h1 : 1970 ≤ y) (h2 : y ≤ 2024) :
    tokenOk (toString y) = true ∧ parseIntToken (toString y).data = some y := by
  obtain ⟨n, hn, rfl⟩ : ∃ n : Nat, n < 55 ∧ y = 1970 + (n : Int) :=
    ⟨(y - 1970).toNat, by omega, by omega⟩
  have hb := yearReprOk_all n hn
  simp only [yearReprOk, Bool.and_eq_true, beq_iff_eq] at hb
  exact ⟨hb.1, hb.2⟩

theorem build_url_none_eq (y : Int) (c : String) :
    build_url y c none =
      base_url ++ "?" ++ (quote_plus "ano" ++ "=" ++ quote_plus (toString y) ++ "&" ++
        (quote_plus "opcao" ++ "=" ++ quote_plus c)) := rfl

theorem build_url_some_eq (y : Int) (c v : String) (hv : v ≠ "") :
    build_url y c (some v) =
      base_url ++ "?" ++ (quote_plus "ano" ++ "=" ++ quote_plus (toString y) ++ "&" ++
        ((quote_plus "opcao" ++ "=" ++ quote_plus c) ++ "&" ++
          (quote_plus "subopcao" ++ "=" ++ quote_plus v))) := by
  have ht : optTruthy (some v) = true := by simp [optTruthy, hv]
  simp only [build_url, ht, if_true]
  rfl

theorem build_url_none_data (y : Int) (c : String)
    (hy : tokenOk (toString y) = true) (hc : tokenOk c = true) :
    (build_url y c none).data =
      base_url.data ++ '?' :: ("ano".data ++ '=' ::
        ((toString y).data ++ '&' :: ("opcao".data ++ '=' :: c.data))) := by
  rw [build_url_none_eq, quote_plus_safe _ hy, quote_plus_safe _ hc]
  have h1 : ("?" : String).data = ['?'] := rfl
  have h2 : ("=" : String).data = ['='] := rfl
  have h3 : ("&" : String).data = ['&'] := rfl
  have hqa : (quote_plus "ano").data = ['a', 'n', 'o'] := rfl
  have hqo : (quote_plus "opcao").data = ['o', 'p', 'c', 'a', 'o'] := rfl
  simp [String.data_append, h1, h2, h3, hqa, hqo, List.append_assoc]

theorem build_url_some_data (y : Int) (c v : String)
    (hy : tokenOk (toString y) = true) (hc : tokenOk c = true) (hv : tokenOk v = true)
    (hne : v ≠ "") :
    (build_url y c (some v)).data =
      base_url.data ++ '?' :: ("ano".data ++ '=' ::
        ((toString y).data ++ '&' :: ("opcao".data ++ '=' ::
          (c.data ++ '&' :: ("subopcao".data ++ '=' :: v.data))))) := by
  rw [build_url_some_eq y c v hne, quote_plus_safe _ hy, quote_plus_safe _ hc,
    quote_plus_safe _ hv]
  have h1 : ("?" : String).data = ['?'] := rfl
  have h2 : ("=" : String).data = ['='] := rfl
  have h3 : ("&" : String).data = ['&'] := rfl
  have hqa : (quote_plus "ano").data = ['a', 'n', 'o'] := rfl
  have hqo : (quote_plus "opcao").data = ['o', 'p', 'c', 'a', 'o'] := rfl
  have hqs : (quote_plus "subopcao").data = ['s', 'u', 'b', 'o', 'p', 'c', 'a', 'o'] := rfl
  simp [String.data_append, h1, h2, h3, hqa, hqo, hqs, List.append_assoc]

theorem parse_two (yv : Int) (Y C : List Char)
    (hY : ∀ ch ∈ Y, isQuoteSafe ch = true) (hC : ∀ ch ∈ C, isQuoteSafe ch = true)
    (hint : parseIntToken Y = some yv) :
    parseQueryString
      ⟨base_url.data ++ '?' :: ("ano".data ++ '=' :: (Y ++ '&' :: ("opcao".data ++ '=' :: C)))⟩ =
      some (yv, ⟨C⟩, none) := by
  have hYok : ∀ ch ∈ Y, ch ≠ '?' ∧ ch ≠ '&' ∧ ch ≠ '=' := fun ch h => safe_not_sep ch (hY ch h)
  have hCok : ∀ ch ∈ C, ch ≠ '?' ∧ ch ≠ '&' ∧ ch ≠ '=' := fun ch h => safe_not_sep ch (hC ch h)
  have hR7 : ∀ ch ∈ ("ano".data ++ '=' :: (Y ++ '&' :: ("opcao".data ++ '=' :: C))), ch ≠ '?' :=
    List.forall_mem_append.2 ⟨by decide, List.forall_mem_cons.2 ⟨by decide,
      List.forall_mem_append.2 ⟨fun ch h => (hYok ch h).1, List.forall_mem_cons.2 ⟨by decide,
        List.forall_mem_append.2 ⟨by decide,
          List.forall_mem_cons.2 ⟨by decide, fun ch h => (hCok ch h).1⟩⟩⟩⟩⟩⟩
  have hsplit1 : splitOnChar '?'
      (base_url.data ++ '?' :: ("ano".data ++ '=' :: (Y ++ '&' :: ("opcao".data ++ '=' :: C)))) =
      [base_url.data, ("ano".data ++ '=' :: (Y ++ '&' :: ("opcao".data ++ '=' :: C)))] := by
    rw [splitOnChar_append _ _ _ (by decide), splitOnChar_no_sep _ _ hR7]
  have hreassoc : "ano".data ++ '=' :: (Y ++ '&' :: ("opcao".data ++ '=' :: C)) =
      ("ano".data ++ '=' :: Y) ++ '&' :: ("opcao".data ++ '=' :: C) := by
    simp [List.append_assoc]
  have hA1amp : ∀ ch ∈ ("ano".data ++ '=' :: Y), ch ≠ '&' :=
    List.forall_mem_append.2 ⟨by decide,
      List.forall_mem_cons.2 ⟨by decide, fun ch h => (hYok ch h).2.1⟩⟩
  have hA2amp : ∀ ch ∈ ("opcao".data ++ '=' :: C), ch ≠ '&' :=
    List.forall_mem_append.2 ⟨by decide,
      List.forall_mem_cons.2 ⟨by decide, fun ch h => (hCok ch h).2.1⟩⟩
  have hsplitAmp : splitOnChar '&'
      ("ano".data ++ '=' :: (Y ++ '&' :: ("opcao".data ++ '=' :: C))) =
      [("ano".data ++ '=' :: Y), ("opcao".data ++ '=' :: C)] := by
    rw [hreassoc, splitOnChar_append _ _ _ hA1amp, splitOnChar_no_sep _ _ hA2amp]
  have hsplitEq1 : splitOnChar '=' ("ano".data ++ '=' :: Y) = ["ano".data, Y] := by
    rw [splitOnChar_append _ _ _ (by decide),
      splitOnChar_no_sep _ _ (fun ch h => (hYok ch h).2.2)]
  have hsplitEq2 : splitOnChar '=' ("opcao".data ++ '=' :: C) = ["opcao".data, C] := by
    rw [splitOnChar_append _ _ _ (by decide),
      splitOnChar_no_sep _ _ (fun ch h => (hCok ch h).2.2)]
  show parseQueryString _ = _
  simp only [parseQueryString, hsplit1, hsplitAmp, List.map_cons, List.map_nil,
    hsplitEq1, hsplitEq2, hint]
  simp

theorem parse_three (yv : Int) (Y C V : List Char)
    (hY : ∀ ch ∈ Y, isQuoteSafe ch = true) (hC : ∀ ch ∈ C, isQuoteSafe ch = true)
    (hV : ∀ ch ∈ V, isQuoteSafe ch = true)
    (hint : parseIntToken Y = some yv) :
    parseQueryString
      ⟨base_url.data ++ '?' :: ("ano".data ++ '=' :: (Y ++ '&' :: ("opcao".data ++ '=' ::
        (C ++ '&' :: ("subopcao".data ++ '=' :: V)))))⟩ =
      some (yv, ⟨C⟩, some ⟨V⟩) := by
  have hYok : ∀ ch ∈ Y, ch ≠ '?' ∧ ch ≠ '&' ∧ ch ≠ '=' := fun ch h => safe_not_sep ch (hY ch h)
  have hCok : ∀ ch ∈ C, ch ≠ '?' ∧ ch ≠ '&' ∧ ch ≠ '=' := fun ch h => safe_not_sep ch (hC ch h)
  have hVok : ∀ ch ∈ V, ch ≠ '?' ∧ ch ≠ '&' ∧ ch ≠ '=' := fun ch h => safe_not_sep ch (hV ch h)
  have hR7 : ∀ ch ∈ ("ano".data ++ '=' :: (Y ++ '&' :: ("opcao".data ++ '=' ::
      (C ++ '&' :: ("subopcao".data ++ '=' :: V))))), ch ≠ '?' :=
    List.forall_mem_append.2 ⟨by decide, List.forall_mem_cons.2 ⟨by decide,
      List.forall_mem_append.2 ⟨fun ch h => (hYok ch h).1, List.forall_mem_cons.2 ⟨by decide,
        List.forall_mem_append.2 ⟨by decide, List.forall_mem_cons.2 ⟨by decide,
          List.forall_mem_append.2 ⟨fun ch h => (hCok ch h).1, List.forall_mem_cons.2 ⟨by decide,
            List.forall_mem_append.2 ⟨by decide,
              List.forall_mem_cons.2 ⟨by decide, fun ch h => (hVok ch h).1⟩⟩⟩⟩⟩⟩⟩⟩⟩⟩
  have hsplit1 : splitOnChar '?'
      (base_url.data ++ '?' :: ("ano".data ++ '=' :: (Y ++ '&' :: ("opcao".data ++ '=' ::
        (C ++ '&' :: ("subopcao".data ++ '=' :: V)))))) =
      [base_url.data, ("ano".data ++ '=' :: (Y ++ '&' :: ("opcao".data ++ '=' ::
        (C ++ '&' :: ("subopcao".data ++ '=' :: V)))))] := by
    rw [splitOnChar_append _ _ _ (by decide), splitOnChar_no_sep _ _ hR7]
  have hreassoc : "ano".data ++ '=' :: (Y ++ '&' :: ("opcao".data ++ '=' ::
      (C ++ '&' :: ("subopcao".data ++ '=' :: V)))) =
      ("ano".data ++ '=' :: Y) ++ '&' :: (("opcao".data ++ '=' :: C) ++ '&' ::
        ("subopcao".data ++ '=' :: V)) := by
    simp [List.append_assoc]
  have hA1amp : ∀ ch ∈ ("ano".data ++ '=' :: Y), ch ≠ '&' :=
    List.forall_mem_append.2 ⟨by decide,
      List.forall_mem_cons.2 ⟨by decide, fun ch h => (hYok ch h).2.1⟩⟩
  have hA2amp : ∀ ch ∈ ("opcao".data ++ '=' :: C), ch ≠ '&' :=
    List.forall_mem_append.2 ⟨by decide,
      List.forall_mem_cons.2 ⟨by decide, fun ch h => (hCok ch h).2.1⟩⟩
  have hA3amp : ∀ ch ∈ ("subopcao".data ++ '=' :: V), ch ≠ '&' :=
    List.forall_mem_append.2 ⟨by decide,
      List.forall_mem_cons.2 ⟨by decide, fun ch h => (hVok ch h).2.1⟩⟩
  have hsplitAmp : splitOnChar '&'
      ("ano".data ++ '=' :: (Y ++ '&' :: ("opcao".data ++ '=' ::
        (C ++ '&' :: ("subopcao".data ++ '=' :: V))))) =
      [("ano".data ++ '=' :: Y), ("opcao".data ++ '=' :: C),
        ("subopcao".data ++ '=' :: V)] := by
    rw [hreassoc, splitOnChar_append _ _ _ hA1amp, splitOnChar_append _ _ _ hA2amp,
      splitOnChar_no_sep _ _ hA3amp]
  have hsplitEq1 : splitOnChar '=' ("ano".data ++ '=' :: Y) = ["ano".data, Y] := by
    rw [splitOnChar_append _ _ _ (by decide),
      splitOnChar_no_sep _ _ (fun ch h => (hYok ch h).2.2)]
  have hsplitEq2 : splitOnChar '=' ("opcao".data ++ '=' :: C) = ["opcao".data, C] := by
    rw [splitOnChar_append _ _ _ (by decide),
      splitOnChar_no_sep _ _ (fun ch h => (hCok ch h).2.2)]
  have hsplitEq3 : splitOnChar '=' ("subopcao".data ++ '=' :: V) = ["subopcao".data, V] := by
    rw [splitOnChar_append _ _ _ (by decide),
      splitOnChar_no_sep _ _ (fun ch h => (hVok ch h).2.2)]
  show parseQueryString _ = _
  simp only [parseQueryString, hsplit1, hsplitAmp, List.map_cons, List.map_nil,
    hsplitEq1, hsplitEq2, hsplitEq3, hint]
  simp

theorem parse_build_none (y : Int) (c : String) (h1 : 1970 ≤ y) (h2 : y ≤ 2024)
    (hc : tokenOk c = true) :
    parseQueryString (build_url y c none) = some (y, c, none) := by
  obtain ⟨hytok, hyint⟩ := year_facts y h1 h2
  have hd : build_url y c none = ⟨base_url.data ++ '?' :: ("ano".data ++ '=' ::
      ((toString y).data ++ '&' :: ("opcao".data ++ '=' :: c.data)))⟩ :=
    String.ext (build_url_none_data y c hytok hc)
  rw [hd]
  exact parse_two y (toString y).data c.data (tokenOk_mem _ hytok) (tokenOk_mem _ hc) hyint

theorem parse_build_some (y : Int) (c v : String) (h1 : 1970 ≤ y) (h2 : y ≤ 2024)
    (hc : tokenOk c = true) (hv : tokenOk v = true) (hne : v ≠ "") :
    parseQueryString (build_url y c (some v)) = some (y, c, some v) := by
  obtain ⟨hytok, hyint⟩ := year_facts y h1 h2
  have hd : build_url y c (some v) = ⟨base_url.data ++ '?' :: ("ano".data ++ '=' ::
      ((toString y).data ++ '&' :: ("opcao".data ++ '=' ::
        (c.data ++ '&' :: ("subopcao".data ++ '=' :: v.data)))))⟩ :=
    String.ext (build_url_some_data y c v hytok hc hv hne)
  rw [hd]
  exact parse_three y (toString y).data c.data v.data (tokenOk_mem _ hytok)
    (tokenOk_mem _ hc) (tokenOk_mem _ hv) hyint

theorem validQuery_facts (y : Int) (c : String) (s : Option String)
    (h : validQuery y c s) :
    1970 ≤ y ∧ y ≤ 2024 ∧ tokenOk c = true ∧
      (s = none ∨ ∃ v, s = some v ∧ v ≠ "" ∧ tokenOk v = true) := by
  obtain ⟨hv, hs⟩ := h
  have hy : ¬(y < 1970 ∨ 2024 < y) := by
    intro hoor
    rw [validate_out_of_range y c s hoor] at hv
    exact Option.noConfusion hv
  have hcat : dictContains VALID_OPTIONS c = true := by
    cases hcc : dictContains VALID_OPTIONS c with
    | true => rfl
    | false =>
      rw [validate_unknown_category y c s hy hcc] at hv
      exact Option.noConfusion hv
  have hc5 : c = "opt_02" ∨ c = "opt_03" ∨ c = "opt_04" ∨ c = "opt_05" ∨ c = "opt_06" := by
    simp [dictContains, VALID_OPTIONS, List.any_eq_true] at hcat
    tauto
  refine ⟨by omega, by omega, ?_, ?_⟩
  · rcases hc5 with rfl | rfl | rfl | rfl | rfl <;> decide
  · cases s with
    | none => exact Or.inl rfl
    | some v =>
      have hne : v ≠ "" := fun he => hs (by rw [he])
      refine Or.inr ⟨v, rfl, hne, ?_⟩
      rcases hc5 with rfl | rfl | rfl | rfl | rfl
      · rw [validate_opt02 y (some v)] at hv
        simp [hy, optTruthy, hne] at hv
      · rw [validate_opt03 y (some v)] at hv
        simp [hy, optTruthy, hne] at hv
        simp [dictContains, VALID_OPTIONS, dictGet, List.any_eq_true] at hv
        rcases hv with rfl | rfl | rfl | rfl <;> decide
      · rw [validate_opt04 y (some v)] at hv
        simp [hy, optTruthy, hne] at hv
      · rw [validate_opt05 y (some v)] at hv
        simp [hy, optTruthy, hne] at hv
        simp [dictContains, VALID_OPTIONS, dictGet, List.any_eq_true] at hv
        rcases hv with rfl | rfl | rfl | rfl | rfl <;> decide
      · rw [validate_opt06 y (some v)] at hv
        simp [hy, optTruthy, hne] at hv
        simp [dictContains, VALID_OPTIONS, dictGet, List.any_eq_true] at hv
        rcases hv with rfl | rfl | rfl | rfl <;> decide

theorem build_eq_spec_none (y : Int) (c : String) :
    build_url y c none = specSerialize y c none := by
  apply String.ext
  rw [build_url_none_eq]
  have h1 : ("?" : String).data = ['?'] := rfl
  have h2 : ("=" : String).data = ['='] := rfl
  have h3 : ("&" : String).data = ['&'] := rfl
  have h4 : ("ano=" : String).data = ['a', 'n', 'o', '='] := rfl
  have h5 : ("&opcao=" : String).data = ['&', 'o', 'p', 'c', 'a', 'o', '='] := rfl
  have h6 : ("" : String).data = [] := rfl
  have hqa : (quote_plus "ano").data = ['a', 'n', 'o'] := rfl
  have hqo : (quote_plus "opcao").data = ['o', 'p', 'c', 'a', 'o'] := rfl
  simp [specSerialize, String.data_append, h1, h2, h3, h4, h5, h6, hqa, hqo,
    List.append_assoc]

theorem build_eq_spec_some (y : Int) (c v : String) (hne : v ≠ "") :
    build_url y c (some v) = specSerialize y c (some v) := by
  apply String.ext
  rw [build_url_some_eq y c v hne]
  have h1 : ("?" : String).data = ['?'] := rfl
  have h2 : ("=" : String).data = ['='] := rfl
  have h3 : ("&" : String).data = ['&'] := rfl
  have h4 : ("ano=" : String).data = ['a', 'n', 'o', '='] := rfl
  have h5 : ("&opcao=" : String).data = ['&', 'o', 'p', 'c', 'a', 'o', '='] := rfl
  have h6 : ("&subopcao=" : String).data =
    ['&', 's', 'u', 'b', 'o', 'p', 'c', 'a', 'o', '='] := rfl
  have hqa : (quote_plus "ano").data = ['a', 'n', 'o'] := rfl
  have hqo : (quote_plus "opcao").data = ['o', 'p', 'c', 'a', 'o'] := rfl
  have hqs : (quote_plus "subopcao").data = ['s', 'u', 'b', 'o', 'p', 'c', 'a', 'o'] := rfl
  simp [specSerialize, String.data_append, h1, h2, h3, h4, h5, h6, hqa, hqo, hqs,
    List.append_assoc]

theorem validate_none_catalog (c : String) (hc : c ∈ dictKeys VALID_OPTIONS)
    (y : Int) (hy : ¬(y < 1970 ∨ 2024 < y)) : validate y c none = none := by
  simp [dictKeys, VALID_OPTIONS] at hc
  rcases hc with rfl | rfl | rfl | rfl | rfl
  · simp [validate_opt02, hy, optTruthy]
  · simp [validate_opt03, hy, optTruthy]
  · simp [validate_opt04, hy, optTruthy]
  · simp [validate_opt05, hy, optTruthy]
  · simp [validate_opt06, hy, optTruthy]

/-- C6: on every validated Query the URL built by the code equals the
spec-side serialization: the base endpoint followed by the query
parameters in the fixed order `year`, `category`, then `subcategory` only
when present, with values percent-encoded, and no subcategory parameter
when the subcategory is absent. -/
theorem C6_request_serialization :
    ∀ (y : Int) (c : String) (s : Option String), validQuery y c s →
      build_url y c s = specSerialize y c s := by
  intro y c s h
  cases s with
  | none => exact build_eq_spec_none y c
  | some v =>
    have hne : v ≠ "" := fun he => h.2 (by rw [he])
    exact build_eq_spec_some y c v hne

/-- C6 witness: scenarios 1 and 2 of the spec. -/
theorem C6_witness :
    build_url 2020 "opt_02" none = specSerialize 2020 "opt_02" none ∧
    build_url 2020 "opt_03" (some "subopt_02") =
      specSerialize 2020 "opt_03" (some "subopt_02") :=
  ⟨C6_request_serialization 2020 "opt_02" none ⟨by decide, by decide⟩,
   C6_request_serialization 2020 "opt_03" (some "subopt_02") ⟨by decide, by decide⟩⟩

/-- C7: the query builder is deterministic (it is a pure function of the
validated Query), parsing the serialized request recovers the original
`(year, category, subcategory?)` triple, and consequently distinct valid
Queries never serialize to the same RetrievalRequest string. -/
theorem C7_roundtrip_injective :
    (∀ (y : Int) (c : String) (s : Option String), validQuery y c s →
      parseQueryString (build_url y c s) = some (y, c, s)) ∧
    (∀ (y1 : Int) (c1 : String) (s1 : Option String)
       (y2 : Int) (c2 : String) (s2 : Option String),
      validQuery y1 c1 s1 → validQuery y2 c2 s2 →
      build_url y1 c1 s1 = build_url y2 c2 s2 →
      y1 = y2 ∧ c1 = c2 ∧ s1 = s2) := by
  have rt : ∀ (y : Int) (c : String) (s : Option String), validQuery y c s →
      parseQueryString (build_url y c s) = some (y, c, s) := by
    intro y c s h
    obtain ⟨h1, h2, hc, hsub⟩ := validQuery_facts y c s h
    rcases hsub with rfl | ⟨v, rfl, hne, hvtok⟩
    · exact parse_build_none y c h1 h2 hc
    · exact parse_build_some y c v h1 h2 hc hvtok hne
  refine ⟨rt, fun y1 c1 s1 y2 c2 s2 hq1 hq2 heq => ?_⟩
  have r1 := rt y1 c1 s1 hq1
  have r2 := rt y2 c2 s2 hq2
  rw [heq, r2] at r1
  simp only [Option.some.injEq, Prod.mk.injEq] at r1
  exact ⟨r1.1.symm, r1.2.1.symm, r1.2.2.symm⟩

/-- C7 witness: scenario 2 of the spec round-trips, and the injectivity
face applied at concrete valid Queries. -/
theorem C7_witness :
    parseQueryString (build_url 2020 "opt_03" (some "subopt_02")) =
      some (2020, "opt_03", some "subopt_02") :=
  C7_roundtrip_injective.1 2020 "opt_03" (some "subopt_02") ⟨by decide, by decide⟩

/-- C10: for every catalog category and in-range year, an empty-string
subcategory is accepted by the validator, validates and serializes exactly
like an absent one, and the resulting URL carries no subcategory
parameter — the empty string is indistinguishable from omission at every
stage. -/
theorem C10_empty_subcategory :
    ∀ c ∈ dictKeys VALID_OPTIONS, ∀ y : Int, 1970 ≤ y → y ≤ 2024 →
    ∀ f : String → Except String (List (List String)),
      validate y c (some "") = validate y c none ∧
      build_url y c (some "") = build_url y c none ∧
      get_table_data f y c (some "") = get_table_data f y c none ∧
      validate y c (some "") = none ∧
      parseQueryString (build_url y c (some "")) = some (y, c, none) := by
  intro c hc y h1 h2 f
  have hoor : ¬(y < 1970 ∨ 2024 < y) := by omega
  have hctok : tokenOk c = true := by
    have hcc := hc
    simp [dictKeys, VALID_OPTIONS] at hcc
    rcases hcc with rfl | rfl | rfl | rfl | rfl <;> decide
  refine ⟨validate_empty_eq_none y c, build_url_empty_eq_none y c,
    get_table_data_empty_eq_none f y c, ?_, ?_⟩
  · rw [validate_empty_eq_none]
    exact validate_none_catalog c hc y hoor
  · rw [build_url_empty_eq_none]
    exact parse_build_none y c h1 h2 hctok

/-- C10 witness: `year=2020, category=opt_03, subcategory=""`. -/
theorem C10_witness :
    validate 2020 "opt_03" (some "") = validate 2020 "opt_03" none ∧
    build_url 2020 "opt_03" (some "") = build_url 2020 "opt_03" none ∧
    get_table_data (fun _ => .ok []) 2020 "opt_03" (some "") =
      get_table_data (fun _ => .ok []) 2020 "opt_03" none ∧
    validate 2020 "opt_03" (some "") = none ∧
    parseQueryString (build_url 2020 "opt_03" (some "")) = some (2020, "opt_03", none) :=
  C10_empty_subcategory "opt_03" (by decide) 2020 (by decide) (by decide) _
